import Mathlib

/-!
Shallow embedding of the video comprehension pipeline of
`video_vision_engine.py` (class `VideoVisionEngine`).

Real numbers produced by the Python code (brightness means, motion
intensities, scores, skill gauges) are modelled as rationals.  The
OpenCV sub-computations (grayscale means, cascade detections, contour
counts, absolute frame differences) are opaque external calls for the
analysed code, so a decoded frame is modelled by the outputs of those
calls that the engine actually consumes, and the per-pair motion
intensity is supplied by an environment function.
-/

namespace VideoVision

/-- One decoded frame, abstracted to the values the engine reads off it:
`brightness` is `np.mean(gray)/255` of the downscaled grayscale frame,
`objects` is the number of detections the cascade detector returns, and
`textRegions` is the number of text-plausible contour boxes found by
`_detect_text_in_frame`'s geometric filter. -/
structure Frame where
  brightness : ℚ
  objects : ℕ
  textRegions : ℕ
deriving DecidableEq

/-- Result of `_detect_motion`: the thresholded-pixel ratio and the
`> 0.01` detection flag (lines 483-518). -/
structure MotionInfo where
  motion_detected : Bool
  motion_intensity : ℚ
deriving DecidableEq

/-- `_detect_motion` on the absolute-difference intensity of two frames:
`motion_intensity = motion_pixels/total_pixels` is supplied as `intensity`;
motion is flagged when more than 1% of pixels changed (line 505). -/
def detect_motion (intensity : ℚ) : MotionInfo :=
  { motion_detected := decide ((1 : ℚ)/100 < intensity)
    motion_intensity := intensity }

/-- The `frame_analysis` dictionary built by `_analyze_single_frame`
(lines 387-447), restricted to the fields later stages consume:
`objects_detected` and `text_found` are the lengths of the corresponding
Python lists, `motion_detected` is `none` exactly when the Python value
is `None`. -/
structure FrameAnalysis where
  brightness : ℚ
  objects_detected : ℕ
  text_found : ℕ
  motion_detected : Option MotionInfo
  scene_change : Bool
deriving DecidableEq

/-- `_detect_scene_change` (lines 602-624).  The persistent attribute
`self._last_brightness` is threaded explicitly: the input `lastB` is
`none` when the attribute is not yet set (`hasattr` fails), and the
second component of the result is the value stored into the attribute
(always the current brightness, line 613).  Indicators: brightness jump
`> 0.3`, at least one detected object, recorded motion intensity `> 0.2`;
a scene change is reported iff at least two hold. -/
def detect_scene_change (lastB : Option ℚ) (fa : FrameAnalysis) : Bool × ℚ :=
  let indicators : ℕ :=
    match lastB with
    | some lb => if 3/10 < |fa.brightness - lb| then 1 else 0
    | none => 0
  let indicators : ℕ := if 0 < fa.objects_detected then indicators + 1 else indicators
  let indicators : ℕ :=
    match fa.motion_detected with
    | some mi => if 1/5 < mi.motion_intensity then indicators + 1 else indicators
    | none => indicators
  (decide (2 ≤ indicators), fa.brightness)

/-- `_analyze_single_frame` (lines 387-447) for a successfully decoded
frame: brightness, object detections and text-candidate count come from
the frame; motion versus the previous analyzed frame is recorded only
when `_detect_motion` flags it (lines 430-433); `_detect_text_in_frame`
appends exactly one text instance when at least one text-plausible
region exists (lines 470-476).  `motion` is the environment function
giving the thresholded-difference intensity of a frame pair.  The second
component is the updated `self._last_brightness`. -/
def analyze_single_frame (motion : Frame → Frame → ℚ) (f : Frame)
    (prev : Option Frame) (lastB : Option ℚ) : FrameAnalysis × ℚ :=
  let motionInfo : Option MotionInfo :=
    match prev with
    | some p =>
      let mi := detect_motion (motion f p)
      if mi.motion_detected then some mi else none
    | none => none
  let fa : FrameAnalysis :=
    { brightness := f.brightness
      objects_detected := f.objects
      text_found := if 0 < f.textRegions then 1 else 0
      motion_detected := motionInfo
      scene_change := false }
  let sc := detect_scene_change lastB fa
  ({ fa with scene_change := sc.1 }, sc.2)

/-- Buckets of the motion sentence of `_generate_video_summary`
(lines 659-665).  The source emits only the `high` and `moderate`
sentences; `low` exists in this vocabulary because the caller
`main_ai.py` (lines 981-986) prints a three-way bucketing, but the
visual summary itself never produces it. -/
inductive MotionLevel where
  | high
  | moderate
  | low
deriving DecidableEq

/-- The motion classification performed by `_generate_video_summary`
(lines 659-665): `none` when no motion event was recorded, otherwise
`high` when the average recorded intensity exceeds `0.1` and `moderate`
otherwise. -/
def summary_motion_class (events : List ℚ) : Option MotionLevel :=
  if events = [] then none
  else if 1/10 < events.sum / (events.length : ℚ) then some MotionLevel.high
  else some MotionLevel.moderate

/-- Vocabulary of `_analyze_frame_colors` (lines 520-555). -/
inductive DominantColor where
  | red
  | green
  | blue
  | white
  | black
  | mixed
deriving DecidableEq

/-- The color categorization of `_analyze_frame_colors` (lines 532-544)
applied to the per-channel means `r`, `g`, `b` of the RGB frame. -/
def dominant_color_of (r g b : ℚ) : DominantColor :=
  if r > g ∧ r > b then DominantColor.red
  else if g > r ∧ g > b then DominantColor.green
  else if b > r ∧ b > g then DominantColor.blue
  else if r > 150 ∧ g > 150 ∧ b > 150 then DominantColor.white
  else if r < 50 ∧ g < 50 ∧ b < 50 then DominantColor.black
  else DominantColor.mixed

/-- The `watch_result` dictionary (lines 90-103), restricted to the
fields the verified claims consume.  `objects_seen` and `text_found`
are the lengths of the corresponding Python lists; `scenes_detected`
keeps the boundary timestamps; `motion_detected` keeps the recorded
motion intensities; `visual_motion_class` is the motion bucket of the
visual summary sentence. -/
structure WatchResult where
  frames_analyzed : ℕ := 0
  scenes_detected : List ℚ := []
  objects_seen : ℕ := 0
  text_found : ℕ := 0
  motion_detected : List ℚ := []
  video_duration : ℚ := 0
  visual_motion_class : Option MotionLevel := none
  comprehension_score : ℚ := 0
  success : Bool := false
  error : Option String := none
deriving DecidableEq

/-- The fresh `watch_result` built at the top of `watch_video`
(lines 90-103). -/
def emptyWatchResult : WatchResult := {}

/-- `_calculate_comprehension_score` (lines 669-704), verbatim: each
category adds its saturating sub-score only when non-empty, while
`max_score` is incremented by `0.2` unconditionally after every block. -/
def calculate_comprehension_score (wr : WatchResult) : ℚ :=
  let score : ℚ := 0
  let max_score : ℚ := 0
  let score := if 0 < wr.frames_analyzed then
      score + min ((wr.frames_analyzed : ℚ) / 100) 1 * (1/5) else score
  let max_score := max_score + 1/5
  let score := if wr.scenes_detected ≠ [] then
      score + min ((wr.scenes_detected.length : ℚ) / 5) 1 * (1/5) else score
  let max_score := max_score + 1/5
  let score := if 0 < wr.objects_seen then
      score + min ((wr.objects_seen : ℚ) / 10) 1 * (1/5) else score
  let max_score := max_score + 1/5
  let score := if 0 < wr.text_found then
      score + min ((wr.text_found : ℚ) / 5) 1 * (1/5) else score
  let max_score := max_score + 1/5
  let score := if wr.motion_detected ≠ [] then
      score + min ((wr.motion_detected.length : ℚ) / 20) 1 * (1/5) else score
  let max_score := max_score + 1/5
  if 0 < max_score then score / max_score else 0

/-- The frame-analysis sub-score of the comprehension score (lines 675-677). -/
def sub_frames (wr : WatchResult) : ℚ :=
  if 0 < wr.frames_analyzed then min ((wr.frames_analyzed : ℚ) / 100) 1 * (1/5) else 0

/-- The scene-detection sub-score of the comprehension score (lines 681-683). -/
def sub_scenes (wr : WatchResult) : ℚ :=
  if wr.scenes_detected ≠ [] then min ((wr.scenes_detected.length : ℚ) / 5) 1 * (1/5) else 0

/-- The object-detection sub-score of the comprehension score (lines 687-689). -/
def sub_objects (wr : WatchResult) : ℚ :=
  if 0 < wr.objects_seen then min ((wr.objects_seen : ℚ) / 10) 1 * (1/5) else 0

/-- The text-recognition sub-score of the comprehension score (lines 693-695). -/
def sub_text (wr : WatchResult) : ℚ :=
  if 0 < wr.text_found then min ((wr.text_found : ℚ) / 5) 1 * (1/5) else 0

/-- The motion-understanding sub-score of the comprehension score (lines 699-701). -/
def sub_motion (wr : WatchResult) : ℚ :=
  if wr.motion_detected ≠ [] then min ((wr.motion_detected.length : ℚ) / 20) 1 * (1/5) else 0

/-- Modelled from the spec (§4.5): the normalization rule as the spec
words it — the sub-scores are summed and divided by the sum of the
`0.2` weights of only those sub-scores whose observation category was
non-empty.  This definition exists to be compared with
`calculate_comprehension_score`, which is translated from the source. -/
def spec_comprehension_score (wr : WatchResult) : ℚ :=
  let num : ℚ :=
    sub_frames wr + sub_scenes wr + sub_objects wr + sub_text wr + sub_motion wr
  let denom : ℚ :=
    (if 0 < wr.frames_analyzed then (1:ℚ)/5 else 0) +
    (if wr.scenes_detected ≠ [] then (1:ℚ)/5 else 0) +
    (if 0 < wr.objects_seen then (1:ℚ)/5 else 0) +
    (if 0 < wr.text_found then (1:ℚ)/5 else 0) +
    (if wr.motion_detected ≠ [] then (1:ℚ)/5 else 0)
  if 0 < denom then num / denom else 0

/-- Keys of the `self.video_vision_skills` dictionary (lines 23-32). -/
inductive SkillKey where
  | frame_analysis
  | motion_detection
  | scene_understanding
  | text_recognition
  | object_tracking
  | audio_processing
  | content_comprehension
  | real_time_learning
deriving DecidableEq

/-- The skills dictionary, with its fixed eight keys, modelled as a
function on the key enum. -/
def VideoVisionSkills : Type := SkillKey → ℚ

/-- Initial values of `self.video_vision_skills` (lines 23-32). -/
def initial_skills : VideoVisionSkills := fun k =>
  match k with
  | SkillKey.frame_analysis => 3/10
  | SkillKey.motion_detection => 1/5
  | SkillKey.scene_understanding => 2/5
  | SkillKey.text_recognition => 3/10
  | SkillKey.object_tracking => 1/5
  | SkillKey.audio_processing => 1/10
  | SkillKey.content_comprehension => 3/10
  | SkillKey.real_time_learning => 1/5

/-- One clamped skill nudge `skills[k] = min(1.0, skills[k] + c)`. -/
def bump (s : VideoVisionSkills) (k : SkillKey) (c : ℚ) : VideoVisionSkills :=
  Function.update s k (min 1 (s k + c))

/-- `_update_video_vision_skills` (lines 834-867): each gauge is nudged
up by its fixed increment when its trigger holds, clamped at `1.0`;
`real_time_learning` is nudged unconditionally (line 867). -/
def update_video_vision_skills (wr : WatchResult) (s : VideoVisionSkills) :
    VideoVisionSkills :=
  let s := if 0 < wr.frames_analyzed then bump s SkillKey.frame_analysis (1/100) else s
  let s := if wr.scenes_detected ≠ [] then bump s SkillKey.scene_understanding (1/50) else s
  let s := if 0 < wr.objects_seen then bump s SkillKey.object_tracking (1/50) else s
  let s := if 0 < wr.text_found then bump s SkillKey.text_recognition (1/50) else s
  let s := if wr.motion_detected ≠ [] then bump s SkillKey.motion_detection (1/50) else s
  let s := if 1/2 < wr.comprehension_score then bump s SkillKey.content_comprehension (1/100) else s
  bump s SkillKey.real_time_learning (1/100)

/-- The opened capture handle of `_analyze_video_content`: `opened` is
`cap.isOpened()`, `fps` and `total_frames` are the integer properties
read at lines 324-325, and `frames` is the sequence `cap.read()` yields. -/
structure VideoHandle where
  opened : Bool
  fps : ℕ
  total_frames : ℕ
  frames : List Frame

/-- The stride computation `frame_skip = max(1, fps // 2)` (line 332). -/
def frame_skip_of (fps : ℕ) : ℕ := max 1 (fps / 2)

/-- Mutable state of the frame loop of `_analyze_video_content`
(lines 334-372): the accumulating `watch_result`, the local counter
`analyzed_frames`, the local `previous_frame` buffer, and the persistent
`self._last_brightness` attribute. -/
structure LoopState where
  wr : WatchResult
  analyzed : ℕ
  prev : Option Frame
  lastB : Option ℚ

/-- Body of the per-sampled-frame branch of the loop (lines 344-365):
analyze the frame, extend the object/text/motion/scene accumulators
exactly when the per-frame results are non-empty, bump the analyzed
counter and store the frame as `previous_frame`. -/
def stepFrame (motion : Frame → Frame → ℚ) (fps : ℕ) (fc : ℕ) (f : Frame)
    (st : LoopState) : LoopState :=
  let res := analyze_single_frame motion f st.prev st.lastB
  let fa := res.1
  let wr := st.wr
  let wr := if 0 < fa.objects_detected then
      { wr with objects_seen := wr.objects_seen + fa.objects_detected } else wr
  let wr := if 0 < fa.text_found then
      { wr with text_found := wr.text_found + fa.text_found } else wr
  let wr :=
    match fa.motion_detected with
    | some mi => { wr with motion_detected := wr.motion_detected ++ [mi.motion_intensity] }
    | none => wr
  let wr := if fa.scene_change then
      { wr with scenes_detected := wr.scenes_detected ++ [(fc : ℚ) / (fps : ℚ)] } else wr
  { wr := wr, analyzed := st.analyzed + 1, prev := some f, lastB := some res.2 }

/-- The `while frame_count < max_frames` loop (lines 338-372): frames
are read in order, every `frame_skip`-th one is analyzed, and the loop
stops at `max_frames` or at end of stream. -/
def analyzeLoop (motion : Frame → Frame → ℚ) (fps frame_skip max_frames : ℕ) :
    List Frame → ℕ → LoopState → LoopState
  | [], _, st => st
  | f :: rest, fc, st =>
    if fc < max_frames then
      let st := if fc % frame_skip = 0 then stepFrame motion fps fc f st else st
      analyzeLoop motion fps frame_skip max_frames rest (fc + 1) st
    else st

/-- `_analyze_video_content` (lines 312-385).  `exc` injects an
exception raised at the top of the `try` block (e.g. by
`cv2.VideoCapture`): the handler at lines 381-384 records the message
in `watch_result['error']` and returns normally.  An unopenable handle
returns the result unchanged (lines 319-321).  Otherwise the video
duration is guarded against `fps = 0` (line 326), `max_frames` and the
stride are computed (lines 331-332) and the frame loop runs; the
analyzed count and the duration are stored at lines 376-377.  The
second component is the persistent `self._last_brightness` after the
call. -/
def analyze_video_content (motion : Frame → Frame → ℚ) (exc : Option String)
    (v : VideoHandle) (duration_limit : ℕ) (lastB : Option ℚ) (wr : WatchResult) :
    WatchResult × Option ℚ :=
  match exc with
  | some msg => ({ wr with error := some msg }, lastB)
  | none =>
    if v.opened then
      let video_duration : ℚ :=
        if 0 < v.fps then (v.total_frames : ℚ) / (v.fps : ℚ) else 0
      let max_frames := min v.total_frames (duration_limit * v.fps)
      let frame_skip := frame_skip_of v.fps
      let st := analyzeLoop motion v.fps frame_skip max_frames v.frames 0
        { wr := wr, analyzed := 0, prev := none, lastB := lastB }
      ({ st.wr with frames_analyzed := st.analyzed, video_duration := video_duration },
        st.lastB)
    else (wr, lastB)

/-- Persistent engine state threaded across `watch_video` calls: the
skills dictionary and the `self._last_brightness` attribute of
`_detect_scene_change` (which is `none` until first set). -/
structure EngineState where
  skills : VideoVisionSkills
  last_brightness : Option ℚ

/-- Engine state of a freshly constructed `VideoVisionEngine` (with no
persisted data on disk). -/
def initialEngine : EngineState :=
  { skills := initial_skills, last_brightness := none }

/-- Environment of one `watch_video` call: `prepare` is the outcome of
`_prepare_video_for_analysis` together with opening the returned path
(`none` models a falsy path), `analyzeExc` injects an exception into
`_analyze_video_content`'s `try` block, and `motion` is the opaque
frame-difference intensity. -/
structure WatchEnv where
  prepare : Option VideoHandle
  analyzeExc : Option String
  motion : Frame → Frame → ℚ

/-- `watch_video` (lines 84-139).  When preparation succeeds, the
content analysis runs, the visual summary (its motion bucket) and the
comprehension score are stored, `_learn_from_video_watching` updates
the skills (its other effects feed no later claim) and `success` is set
to `True`; when preparation fails, the fixed error message is recorded
and `success` stays `False`.  The function is total: every failure path
of the Python code is caught inside the call. -/
def watch_video (env : WatchEnv) (duration_limit : ℕ) (st : EngineState) :
    WatchResult × EngineState :=
  match env.prepare with
  | some v =>
    let res := analyze_video_content env.motion env.analyzeExc v duration_limit
      st.last_brightness emptyWatchResult
    let wr := res.1
    let wr := { wr with visual_motion_class := summary_motion_class wr.motion_detected }
    let wr := { wr with comprehension_score := calculate_comprehension_score wr }
    let skills := update_video_vision_skills wr st.skills
    let wr := { wr with success := true }
    (wr, { skills := skills, last_brightness := res.2 })
  | none =>
    ({ emptyWatchResult with error := some "Could not prepare video for analysis" }, st)

/-- A sequence of `watch_video` calls on one engine. -/
def runWatches (duration_limit : ℕ) : List WatchEnv → EngineState → EngineState
  | [], st => st
  | e :: rest, st => runWatches duration_limit rest (watch_video e duration_limit st).2

/-- Gauge invariant: every skill value lies in `[0, 1]`. -/
def gaugesIn01 (s : VideoVisionSkills) : Prop :=
  ∀ k, 0 ≤ s k ∧ s k ≤ 1

/-- Pointwise order on skills dictionaries. -/
def skillsLE (s t : VideoVisionSkills) : Prop :=
  ∀ k, s k ≤ t k

/-- A watch in which only frame analysis contributed: 20 frames
analyzed and no scenes, objects, text or motion (spec §8, Scenario A). -/
def frames_only_20 : WatchResult := { frames_analyzed := 20 }

/-- A capture handle that cannot be opened (`cap.isOpened()` false). -/
def vBad : VideoHandle := { opened := false, fps := 0, total_frames := 0, frames := [] }

/-- An environment in which preparation succeeds but the prepared video
cannot be opened for decoding. -/
def envBad : WatchEnv := { prepare := some vBad, analyzeExc := none, motion := fun _ _ => 0 }

/-- An all-bright frame with no detections. -/
def fA : Frame := { brightness := 1, objects := 0, textRegions := 0 }

/-- An all-dark frame containing one detected object. -/
def fB : Frame := { brightness := 0, objects := 1, textRegions := 0 }

/-- A one-frame, 2 fps video whose only frame is `fA`. -/
def v1 : VideoHandle := { opened := true, fps := 2, total_frames := 1, frames := [fA] }

/-- A one-frame, 2 fps video whose only frame is `fB`. -/
def v2 : VideoHandle := { opened := true, fps := 2, total_frames := 1, frames := [fB] }

/-- Environment that watches `v1`. -/
def env1 : WatchEnv := { prepare := some v1, analyzeExc := none, motion := fun _ _ => 0 }

/-- Environment that watches `v2`. -/
def env2 : WatchEnv := { prepare := some v2, analyzeExc := none, motion := fun _ _ => 0 }

/-- Environment in which preparation succeeds but the content analysis
raises internally (the exception is caught inside
`_analyze_video_content`). -/
def envExc : WatchEnv :=
  { prepare := some v1, analyzeExc := some "analysis failed", motion := fun _ _ => 0 }

/-- Environment in which `_prepare_video_for_analysis` returns a falsy
path. -/
def envNone : WatchEnv := { prepare := none, analyzeExc := none, motion := fun _ _ => 0 }

/-!  Theorems.  -/

/-- Shift a conditional increment out of an accumulating sum. -/
theorem ite_add_shift (c : Prop) [Decidable c] (a t : ℚ) :
    (if c then a + t else a) = a + (if c then t else 0) := by
  split_ifs <;> simp

/-- The comprehension score always splits as the plain sum of its five
conditional sub-scores: the accumulated `max_score` denominator is
`1.0` no matter which categories are empty. -/
theorem calculate_comprehension_score_eq (wr : WatchResult) :
    calculate_comprehension_score wr =
      sub_frames wr + sub_scenes wr + sub_objects wr + sub_text wr + sub_motion wr := by
  simp only [calculate_comprehension_score]
  rw [if_pos (by norm_num : (0:ℚ) < 0 + 1/5 + 1/5 + 1/5 + 1/5 + 1/5)]
  simp only [ite_add_shift]
  rw [show (0 + 1/5 + 1/5 + 1/5 + 1/5 + 1/5 : ℚ) = 1 by norm_num, div_one]
  simp only [sub_frames, sub_scenes, sub_objects, sub_text, sub_motion]
  ring

/-- Each saturating sub-score term lies in `[0, 1/5]`. -/
theorem saturating_term_bounds (q : ℚ) (hq : 0 ≤ q) :
    0 ≤ min q 1 * (1/5) ∧ min q 1 * (1/5) ≤ 1/5 := by
  constructor
  · have h0 : (0:ℚ) ≤ min q 1 := le_min hq (by norm_num)
    nlinarith
  · have h1 : min q 1 ≤ 1 := min_le_right q 1
    nlinarith

/-- Each of the five sub-scores lies in `[0, 1/5]`. -/
theorem sub_scores_bounds (wr : WatchResult) :
    (0 ≤ sub_frames wr ∧ sub_frames wr ≤ 1/5) ∧
    (0 ≤ sub_scenes wr ∧ sub_scenes wr ≤ 1/5) ∧
    (0 ≤ sub_objects wr ∧ sub_objects wr ≤ 1/5) ∧
    (0 ≤ sub_text wr ∧ sub_text wr ≤ 1/5) ∧
    (0 ≤ sub_motion wr ∧ sub_motion wr ≤ 1/5) := by
  refine ⟨?_, ?_, ?_, ?_, ?_⟩ <;>
    first
    | (unfold sub_frames; split_ifs
       · exact saturating_term_bounds _ (by positivity)
       · norm_num)
    | (unfold sub_scenes; split_ifs
       · exact saturating_term_bounds _ (by positivity)
       · norm_num)
    | (unfold sub_objects; split_ifs
       · exact saturating_term_bounds _ (by positivity)
       · norm_num)
    | (unfold sub_text; split_ifs
       · exact saturating_term_bounds _ (by positivity)
       · norm_num)
    | (unfold sub_motion; split_ifs
       · exact saturating_term_bounds _ (by positivity)
       · norm_num)

/-- C1 counterexample: on the frames-only watch with 20 analyzed frames
the code computes `0.04`, while the claimed normalization (modelled by
`spec_comprehension_score`) gives `0.2`; the two disagree. -/
theorem comprehension_score_scenario_a_cx :
    calculate_comprehension_score frames_only_20 = 1/25 ∧
    spec_comprehension_score frames_only_20 = 1/5 ∧
    ((1:ℚ)/25) ≠ 1/5 := by
  refine ⟨?_, ?_, by norm_num⟩
  · norm_num [calculate_comprehension_score, frames_only_20]
  · norm_num [spec_comprehension_score, frames_only_20, sub_frames, sub_scenes,
      sub_objects, sub_text, sub_motion]

/-- C1 (amended): the comprehension score equals the sum of the five
saturating sub-scores divided by the fixed total weight `1.0` (the code
adds `0.2` to `max_score` unconditionally for every category); in
particular a watch in which only frame analysis contributed, with 20
frames analyzed, scores `0.04`. -/
theorem comprehension_score_fixed_denominator :
    (∀ wr : WatchResult, calculate_comprehension_score wr =
      sub_frames wr + sub_scenes wr + sub_objects wr + sub_text wr + sub_motion wr) ∧
    calculate_comprehension_score frames_only_20 = 1/25 := by
  refine ⟨calculate_comprehension_score_eq, ?_⟩
  norm_num [calculate_comprehension_score, frames_only_20]

/-- C7: for every watch result, the empty one included, the
comprehension score lies in `[0, 1]`. -/
theorem comprehension_score_mem_unit_interval (wr : WatchResult) :
    0 ≤ calculate_comprehension_score wr ∧ calculate_comprehension_score wr ≤ 1 := by
  have hsplit := calculate_comprehension_score_eq wr
  obtain ⟨⟨hf0, hf1⟩, ⟨hs0, hs1⟩, ⟨ho0, ho1⟩, ⟨ht0, ht1⟩, ⟨hm0, hm1⟩⟩ :=
    sub_scores_bounds wr
  constructor <;> rw [hsplit] <;> linarith

/-- C2 counterexample: when the prepared video cannot be opened,
`watch_video` still reports success with no error and zero frames
analyzed — the call is not aborted and no failure is returned. -/
theorem unopened_video_reports_success_cx :
    (watch_video envBad 300 initialEngine).1.success = true ∧
    (watch_video envBad 300 initialEngine).1.error = none ∧
    (watch_video envBad 300 initialEngine).1.frames_analyzed = 0 := by
  norm_num [watch_video, analyze_video_content, envBad, vBad, emptyWatchResult,
    summary_motion_class, calculate_comprehension_score, initialEngine]

/-- C2 (amended): if the video handle cannot be opened,
`_analyze_video_content` returns the watch result unchanged (no error
recorded) and `watch_video` completes normally, returning a successful
zero-observation result (`success = true`, `frames_analyzed = 0`,
score `0`) rather than an explicit failure. -/
theorem unopened_video_degrades_to_success (m : Frame → Frame → ℚ) (v : VideoHandle)
    (dl : ℕ) (st : EngineState) (h : v.opened = false) :
    (watch_video ⟨some v, none, m⟩ dl st).1.success = true ∧
    (watch_video ⟨some v, none, m⟩ dl st).1.frames_analyzed = 0 ∧
    (watch_video ⟨some v, none, m⟩ dl st).1.error = none ∧
    (watch_video ⟨some v, none, m⟩ dl st).1.comprehension_score = 0 := by
  norm_num [watch_video, analyze_video_content, h, emptyWatchResult,
    summary_motion_class, calculate_comprehension_score]

/-- Witness for the amended C2 theorem at the concrete unopenable
handle `vBad`. -/
theorem unopened_video_degrades_to_success_witness :
    (watch_video ⟨some vBad, none, fun _ _ => 0⟩ 300 initialEngine).1.success = true ∧
    (watch_video ⟨some vBad, none, fun _ _ => 0⟩ 300 initialEngine).1.frames_analyzed = 0 ∧
    (watch_video ⟨some vBad, none, fun _ _ => 0⟩ 300 initialEngine).1.error = none ∧
    (watch_video ⟨some vBad, none, fun _ _ => 0⟩ 300 initialEngine).1.comprehension_score = 0 :=
  unopened_video_degrades_to_success (fun _ _ => 0) vBad 300 initialEngine rfl

/-- The frame loop analyzes nothing when `max_frames = 0`. -/
theorem analyzeLoop_max_frames_zero (m : Frame → Frame → ℚ) (fps fs : ℕ)
    (frames : List Frame) (fc : ℕ) (st : LoopState) :
    analyzeLoop m fps fs 0 frames fc st = st := by
  cases frames <;> simp [analyzeLoop]

/-- C3 counterexample: with `fps = 0` the computed stride is
`max(1, 0 // 2) = 1`, not the claimed fallback of 15. -/
theorem fps_zero_stride_cx : frame_skip_of 0 = 1 ∧ frame_skip_of 0 ≠ 15 := by
  constructor <;> norm_num [frame_skip_of]

/-- C3 (amended): when the source reports `fps = 0`, the sampler falls
back to stride `max(1, fps // 2) = 1` (not 15), and no division by zero
occurs: the duration is guarded to `0` and `max_frames = 0`, so no
frame is ever read and no timestamp is divided by `fps`. -/
theorem fps_zero_no_division (m : Frame → Frame → ℚ) (v : VideoHandle) (dl : ℕ)
    (lastB : Option ℚ) (h : v.fps = 0) :
    frame_skip_of 0 = 1 ∧
    (analyze_video_content m none v dl lastB emptyWatchResult).1.frames_analyzed = 0 ∧
    (analyze_video_content m none v dl lastB emptyWatchResult).1.video_duration = 0 ∧
    (analyze_video_content m none v dl lastB emptyWatchResult).2 = lastB := by
  refine ⟨by norm_num [frame_skip_of], ?_⟩
  cases hv : v.opened <;>
    simp [analyze_video_content, hv, h, analyzeLoop_max_frames_zero, emptyWatchResult]

/-- Witness for the amended C3 theorem at a concrete handle with
corrupt `fps = 0` metadata. -/
theorem fps_zero_no_division_witness :
    frame_skip_of 0 = 1 ∧
    (analyze_video_content (fun _ _ => 0) none
      ⟨true, 0, 5, [fA, fB]⟩ 300 none emptyWatchResult).1.frames_analyzed = 0 ∧
    (analyze_video_content (fun _ _ => 0) none
      ⟨true, 0, 5, [fA, fB]⟩ 300 none emptyWatchResult).1.video_duration = 0 ∧
    (analyze_video_content (fun _ _ => 0) none
      ⟨true, 0, 5, [fA, fB]⟩ 300 none emptyWatchResult).2 = none :=
  fps_zero_no_division (fun _ _ => 0) ⟨true, 0, 5, [fA, fB]⟩ 300 none rfl

/-- C4: for a sampled frame after the first (previous analyzed frame
`p`, last observed brightness `p.brightness`), a scene boundary is
emitted iff at least two of the three indicators hold versus the last
observation: brightness jump above `0.3`, at least one object candidate
in the current frame, motion intensity above `0.2`. -/
theorem scene_change_two_of_three (m : Frame → Frame → ℚ) (f p : Frame) :
    (analyze_single_frame m f (some p) (some p.brightness)).1.scene_change = true ↔
      ((3/10 < |f.brightness - p.brightness| ∧ 0 < f.objects) ∨
       (3/10 < |f.brightness - p.brightness| ∧ 1/5 < m f p) ∨
       (0 < f.objects ∧ 1/5 < m f p)) := by
  by_cases hC : (1:ℚ)/5 < m f p
  · have h100 : (1:ℚ)/100 < m f p := by linarith
    have hCi : (5:ℚ)⁻¹ < m f p := by rw [inv_eq_one_div]; exact hC
    have h100i : (100:ℚ)⁻¹ < m f p := by rw [inv_eq_one_div]; exact h100
    by_cases hA : (3:ℚ)/10 < |f.brightness - p.brightness| <;>
      by_cases hB : 0 < f.objects <;>
      simp [analyze_single_frame, detect_scene_change, detect_motion,
        hA, hB, hC, hCi, h100, h100i]
  · have hCi : ¬ (5:ℚ)⁻¹ < m f p := by rw [inv_eq_one_div]; exact hC
    by_cases h100 : (1:ℚ)/100 < m f p
    · have h100i : (100:ℚ)⁻¹ < m f p := by rw [inv_eq_one_div]; exact h100
      by_cases hA : (3:ℚ)/10 < |f.brightness - p.brightness| <;>
        by_cases hB : 0 < f.objects <;>
        simp [analyze_single_frame, detect_scene_change, detect_motion,
          hA, hB, hC, hCi, h100, h100i]
    · have h100i : ¬ (100:ℚ)⁻¹ < m f p := by rw [inv_eq_one_div]; exact h100
      by_cases hA : (3:ℚ)/10 < |f.brightness - p.brightness| <;>
        by_cases hB : 0 < f.objects <;>
        simp [analyze_single_frame, detect_scene_change, detect_motion,
          hA, hB, hC, hCi, h100, h100i]

/-- C5 counterexample: after watching the all-bright one-frame video
`v1`, the engine attribute `_last_brightness` still holds `1`; watching
the all-dark one-object video `v2` next emits a scene boundary at its
very first sampled frame (brightness jump versus the previous video
plus an object, two indicators), whereas the same watch from a fresh
engine emits none — so the segmenter state is not reset per call. -/
theorem scene_state_not_reset_cx :
    (watch_video env1 300 initialEngine).2.last_brightness = some 1 ∧
    (watch_video env2 300 (watch_video env1 300 initialEngine).2).1.scenes_detected = [0] ∧
    (watch_video env2 300 initialEngine).1.scenes_detected = [] := by
  refine ⟨?_, ?_, ?_⟩ <;>
    norm_num [watch_video, analyze_video_content, analyzeLoop, stepFrame,
      analyze_single_frame, detect_scene_change, detect_motion, emptyWatchResult,
      frame_skip_of, env1, env2, v1, v2, fA, fB, initialEngine]

/-- C5 (amended): `self._last_brightness` persists on the engine across
`watch_video` calls and is never reset, so the first sampled frame of a
new video is compared against the last brightness of a previously
watched video: with a stale brightness `lb` differing by more than
`0.3` and one object in the frame, a boundary is emitted at the first
frame, while the same watch with no stored brightness emits none. -/
theorem stale_brightness_emits_boundary (lb : ℚ) (f : Frame)
    (sk : VideoVisionSkills) (dl : ℕ) (m : Frame → Frame → ℚ)
    (h1 : 3/10 < |f.brightness - lb|) (h2 : 0 < f.objects) (h3 : 0 < dl) :
    (watch_video ⟨some ⟨true, 2, 1, [f]⟩, none, m⟩ dl ⟨sk, some lb⟩).1.scenes_detected = [0] ∧
    (watch_video ⟨some ⟨true, 2, 1, [f]⟩, none, m⟩ dl ⟨sk, none⟩).1.scenes_detected = [] := by
  have hmin : min 1 (dl * 2) = 1 := by omega
  constructor <;>
    · simp only [watch_video, analyze_video_content, analyzeLoop, stepFrame,
        analyze_single_frame, detect_scene_change, detect_motion, emptyWatchResult,
        frame_skip_of, hmin]
      norm_num [h1, h2]
      split_ifs <;> rfl

/-- Witness for the amended C5 theorem: stale brightness `1`, an
all-dark frame with one object. -/
theorem stale_brightness_emits_boundary_witness :
    (watch_video ⟨some ⟨true, 2, 1, [fB]⟩, none, fun _ _ => 0⟩ 300
      ⟨initial_skills, some 1⟩).1.scenes_detected = [0] ∧
    (watch_video ⟨some ⟨true, 2, 1, [fB]⟩, none, fun _ _ => 0⟩ 300
      ⟨initial_skills, none⟩).1.scenes_detected = [] :=
  stale_brightness_emits_boundary 1 fB initial_skills 300 (fun _ _ => 0)
    (by norm_num [fB]) (by norm_num [fB]) (by norm_num)

/-- A clamped nudge keeps a gauge dictionary in `[0,1]` and never
decreases any gauge. -/
theorem bump_mem (s : VideoVisionSkills) (k : SkillKey) (c : ℚ)
    (hs : gaugesIn01 s) (hc : 0 ≤ c) :
    gaugesIn01 (bump s k c) ∧ skillsLE s (bump s k c) := by
  constructor
  · intro j
    by_cases hj : j = k
    · subst hj
      simp only [bump, Function.update_same]
      exact ⟨le_min (by norm_num) (add_nonneg (hs j).1 hc), min_le_left _ _⟩
    · simp only [bump, Function.update_noteq hj]
      exact hs j
  · intro j
    by_cases hj : j = k
    · subst hj
      simp only [bump, Function.update_same]
      exact le_min (hs j).2 (le_add_of_nonneg_right hc)
    · simp only [bump, Function.update_noteq hj]
      exact le_refl (s j)

/-- A conditional clamped nudge keeps a gauge dictionary in `[0,1]` and
never decreases any gauge. -/
theorem ite_bump_mem {P : Prop} [Decidable P] (s : VideoVisionSkills) (k : SkillKey)
    (c : ℚ) (hs : gaugesIn01 s) (hc : 0 ≤ c) :
    gaugesIn01 (if P then bump s k c else s) ∧
    skillsLE s (if P then bump s k c else s) := by
  split_ifs with h
  · exact bump_mem s k c hs hc
  · exact ⟨hs, fun j => le_refl (s j)⟩

/-- Chaining of the bounded-and-monotone property. -/
theorem mem_le_trans {s a b : VideoVisionSkills}
    (h1 : gaugesIn01 a ∧ skillsLE s a) (h2 : gaugesIn01 b ∧ skillsLE a b) :
    gaugesIn01 b ∧ skillsLE s b :=
  ⟨h2.1, fun k => le_trans (h1.2 k) (h2.2 k)⟩

/-- One `_update_video_vision_skills` call keeps every gauge in `[0,1]`
and never decreases any gauge. -/
theorem update_skills_mem (wr : WatchResult) (s : VideoVisionSkills)
    (hs : gaugesIn01 s) :
    gaugesIn01 (update_video_vision_skills wr s) ∧
    skillsLE s (update_video_vision_skills wr s) := by
  simp only [update_video_vision_skills]
  set s1 := if 0 < wr.frames_analyzed then bump s SkillKey.frame_analysis (1/100) else s
    with hs1
  set s2 := if wr.scenes_detected ≠ [] then bump s1 SkillKey.scene_understanding (1/50) else s1
    with hs2
  set s3 := if 0 < wr.objects_seen then bump s2 SkillKey.object_tracking (1/50) else s2
    with hs3
  set s4 := if 0 < wr.text_found then bump s3 SkillKey.text_recognition (1/50) else s3
    with hs4
  set s5 := if wr.motion_detected ≠ [] then bump s4 SkillKey.motion_detection (1/50) else s4
    with hs5
  set s6 := if 1/2 < wr.comprehension_score then bump s5 SkillKey.content_comprehension (1/100) else s5
    with hs6
  have h1 : gaugesIn01 s1 ∧ skillsLE s s1 := by
    rw [hs1]; exact ite_bump_mem s SkillKey.frame_analysis (1/100) hs (by norm_num)
  have h2 : gaugesIn01 s2 ∧ skillsLE s s2 := by
    rw [hs2]
    exact mem_le_trans h1 (ite_bump_mem s1 SkillKey.scene_understanding (1/50) h1.1 (by norm_num))
  have h3 : gaugesIn01 s3 ∧ skillsLE s s3 := by
    rw [hs3]
    exact mem_le_trans h2 (ite_bump_mem s2 SkillKey.object_tracking (1/50) h2.1 (by norm_num))
  have h4 : gaugesIn01 s4 ∧ skillsLE s s4 := by
    rw [hs4]
    exact mem_le_trans h3 (ite_bump_mem s3 SkillKey.text_recognition (1/50) h3.1 (by norm_num))
  have h5 : gaugesIn01 s5 ∧ skillsLE s s5 := by
    rw [hs5]
    exact mem_le_trans h4 (ite_bump_mem s4 SkillKey.motion_detection (1/50) h4.1 (by norm_num))
  have h6 : gaugesIn01 s6 ∧ skillsLE s s6 := by
    rw [hs6]
    exact mem_le_trans h5 (ite_bump_mem s5 SkillKey.content_comprehension (1/100) h5.1 (by norm_num))
  exact mem_le_trans h6 (bump_mem s6 SkillKey.real_time_learning (1/100) h6.1 (by norm_num))

/-- One `watch_video` call keeps every gauge in `[0,1]` and never
decreases any gauge. -/
theorem watch_skills_step (e : WatchEnv) (dl : ℕ) (st : EngineState)
    (hs : gaugesIn01 st.skills) :
    gaugesIn01 (watch_video e dl st).2.skills ∧
    skillsLE st.skills (watch_video e dl st).2.skills := by
  cases hp : e.prepare with
  | none =>
    simp only [watch_video, hp]
    exact ⟨hs, fun k => le_refl _⟩
  | some v =>
    simp only [watch_video, hp]
    exact update_skills_mem _ _ hs

/-- Runs of `watch_video` preserve the gauge invariant. -/
theorem runWatches_gauges (dl : ℕ) (envs : List WatchEnv) :
    ∀ st : EngineState, gaugesIn01 st.skills →
      gaugesIn01 (runWatches dl envs st).skills := by
  induction envs with
  | nil => intro st h; simpa [runWatches] using h
  | cons e rest ih =>
    intro st h
    simp only [runWatches]
    exact ih _ (watch_skills_step e dl st h).1

/-- Unfolding one watch off the end of a run. -/
theorem runWatches_append (dl : ℕ) (envs : List WatchEnv) (e : WatchEnv) :
    ∀ st : EngineState,
      runWatches dl (envs ++ [e]) st = (watch_video e dl (runWatches dl envs st)).2 := by
  induction envs with
  | nil => intro st; simp [runWatches]
  | cons f rest ih =>
    intro st
    simp only [List.cons_append, runWatches]
    exact ih _

/-- The constructor-time gauges all lie in `[0,1]`. -/
theorem initial_skills_mem : gaugesIn01 initial_skills := by
  intro k; cases k <;> norm_num [initial_skills]

/-- C6: after any number of `watch_video` calls from a fresh engine,
every skill gauge lies in `[0,1]`, and one more watch never decreases
any gauge (each gauge only moves up by its clamped fixed increment). -/
theorem skill_gauges_bounded_and_monotone (dl : ℕ) (envs : List WatchEnv) (e : WatchEnv) :
    gaugesIn01 (runWatches dl envs initialEngine).skills ∧
    skillsLE (runWatches dl envs initialEngine).skills
      (runWatches dl (envs ++ [e]) initialEngine).skills := by
  have hg : gaugesIn01 (runWatches dl envs initialEngine).skills :=
    runWatches_gauges dl envs initialEngine initial_skills_mem
  refine ⟨hg, ?_⟩
  rw [runWatches_append]
  exact (watch_skills_step e dl _ hg).2

/-- C8 counterexample: a watch whose single motion event has intensity
`0.03` (average `0.03 ≤ 0.05`) is summarized as `moderate`, not as the
claimed `low` bucket. -/
theorem summary_motion_low_average_cx :
    summary_motion_class [(3:ℚ)/100] = some MotionLevel.moderate ∧
    some MotionLevel.moderate ≠ some MotionLevel.low := by
  constructor
  · unfold summary_motion_class
    norm_num
  · decide

/-- C8 (amended): when at least one motion event was recorded, the
visual summary buckets the average motion intensity two ways only:
`high` when it exceeds `0.1` and `moderate` otherwise; there is no
`0.05` threshold and no `low` bucket in the summary. -/
theorem summary_motion_two_buckets (events : List ℚ) (h : events ≠ []) :
    (summary_motion_class events = some MotionLevel.high ↔
      1/10 < events.sum / (events.length : ℚ)) ∧
    (summary_motion_class events = some MotionLevel.moderate ↔
      events.sum / (events.length : ℚ) ≤ 1/10) ∧
    summary_motion_class events ≠ some MotionLevel.low := by
  by_cases hq : 1/10 < events.sum / (events.length : ℚ)
  · have hs : summary_motion_class events = some MotionLevel.high := by
      unfold summary_motion_class
      rw [if_neg h, if_pos hq]
    refine ⟨iff_of_true hs hq, iff_of_false ?_ (not_le.mpr hq), ?_⟩
    · rw [hs]; decide
    · rw [hs]; decide
  · have hs : summary_motion_class events = some MotionLevel.moderate := by
      unfold summary_motion_class
      rw [if_neg h, if_neg hq]
    refine ⟨iff_of_false ?_ hq, iff_of_true hs (not_lt.mp hq), ?_⟩
    · rw [hs]; decide
    · rw [hs]; decide

/-- Witness for the amended C8 theorem at the one-event list
`[0.03]`. -/
theorem summary_motion_two_buckets_witness :
    (summary_motion_class [(3:ℚ)/100] = some MotionLevel.high ↔
      1/10 < ([(3:ℚ)/100] : List ℚ).sum / ((([(3:ℚ)/100] : List ℚ).length : ℚ))) ∧
    (summary_motion_class [(3:ℚ)/100] = some MotionLevel.moderate ↔
      ([(3:ℚ)/100] : List ℚ).sum / ((([(3:ℚ)/100] : List ℚ).length : ℚ)) ≤ 1/10) ∧
    summary_motion_class [(3:ℚ)/100] ≠ some MotionLevel.low :=
  summary_motion_two_buckets [(3:ℚ)/100] (by simp)

/-- C9 counterexample: an internal analysis failure caught inside
`_analyze_video_content` leaves the error string in the result, yet
`watch_video` still reports `success = true`. -/
theorem caught_failure_reports_success_cx :
    (watch_video envExc 300 initialEngine).1.error = some "analysis failed" ∧
    (watch_video envExc 300 initialEngine).1.success = true := by
  constructor <;>
    norm_num [watch_video, analyze_video_content, envExc, v1, emptyWatchResult,
      summary_motion_class, calculate_comprehension_score, initialEngine]

/-- C9 (amended): `watch_video` is total and always returns a result
with a `success` flag; `success` is `true` exactly when preparation
produced a video, and a preparation failure carries the fixed error
string with `success` `false` — but an internal failure caught inside
`_analyze_video_content` sets the error string while `success` still
becomes `true`. -/
theorem watch_success_iff_prepared (env : WatchEnv) (dl : ℕ) (st : EngineState) :
    (watch_video env dl st).1.success = env.prepare.isSome ∧
    (env.prepare = none →
      (watch_video env dl st).1.error = some "Could not prepare video for analysis") := by
  cases hp : env.prepare with
  | none => simp [watch_video, hp, emptyWatchResult]
  | some v => simp [watch_video, hp]

/-- Witness for the amended C9 theorem at a failing preparation. -/
theorem watch_success_iff_prepared_witness :
    (watch_video envNone 300 initialEngine).1.success =
      (none : Option VideoHandle).isSome ∧
    (watch_video envNone 300 initialEngine).1.error =
      some "Could not prepare video for analysis" :=
  ⟨(watch_success_iff_prepared envNone 300 initialEngine).1,
   (watch_success_iff_prepared envNone 300 initialEngine).2 rfl⟩

/-- Three pairwise-distinct rationals cannot all fail to have a strict
maximum among the three comparative tests. -/
theorem no_strict_max_absurd {r g b : ℚ} (h1 : ¬(r > g ∧ r > b))
    (h2 : ¬(g > r ∧ g > b)) (h3 : ¬(b > r ∧ b > g))
    (hrg : r ≠ g) (hrb : r ≠ b) (hgb : g ≠ b) : False := by
  rcases hrg.lt_or_lt with h | h
  · rcases hgb.lt_or_lt with h' | h'
    · exact h3 ⟨by linarith, by linarith⟩
    · exact h2 ⟨by linarith, by linarith⟩
  · rcases hrb.lt_or_lt with h' | h'
    · exact h3 ⟨by linarith, by linarith⟩
    · exact h1 ⟨by linarith, by linarith⟩

/-- C10: the comparative red/green/blue rules are tested before the
white/black threshold rules — `white` or `black` can be returned only
when no single mean channel strictly exceeds both others, and for
pairwise-distinct channel means the dominant color is always one of
red, green, blue. -/
theorem dominant_color_comparative_first (r g b : ℚ) :
    ((dominant_color_of r g b = DominantColor.white ∨
      dominant_color_of r g b = DominantColor.black) →
      ¬(r > g ∧ r > b) ∧ ¬(g > r ∧ g > b) ∧ ¬(b > r ∧ b > g)) ∧
    (r ≠ g → r ≠ b → g ≠ b →
      (dominant_color_of r g b = DominantColor.red ∨
       dominant_color_of r g b = DominantColor.green ∨
       dominant_color_of r g b = DominantColor.blue)) := by
  unfold dominant_color_of
  split_ifs with h1 h2 h3 h4 h5
  · exact ⟨fun hor => absurd hor (by decide), fun _ _ _ => Or.inl rfl⟩
  · exact ⟨fun hor => absurd hor (by decide), fun _ _ _ => Or.inr (Or.inl rfl)⟩
  · exact ⟨fun hor => absurd hor (by decide), fun _ _ _ => Or.inr (Or.inr rfl)⟩
  · exact ⟨fun _ => ⟨h1, h2, h3⟩,
      fun hrg hrb hgb => (no_strict_max_absurd h1 h2 h3 hrg hrb hgb).elim⟩
  · exact ⟨fun _ => ⟨h1, h2, h3⟩,
      fun hrg hrb hgb => (no_strict_max_absurd h1 h2 h3 hrg hrb hgb).elim⟩
  · exact ⟨fun hor => absurd hor (by decide),
      fun hrg hrb hgb => (no_strict_max_absurd h1 h2 h3 hrg hrb hgb).elim⟩

/-- Witness for the C10 theorem: at `(200, 200, 200)` the color is
`white` and indeed no channel strictly dominates; at the pairwise
distinct `(200, 180, 190)` — all three above 150 — the color is still
comparative (`red`). -/
theorem dominant_color_comparative_first_witness :
    (¬((200:ℚ) > 200 ∧ (200:ℚ) > 200) ∧ ¬((200:ℚ) > 200 ∧ (200:ℚ) > 200) ∧
      ¬((200:ℚ) > 200 ∧ (200:ℚ) > 200)) ∧
    (dominant_color_of 200 180 190 = DominantColor.red ∨
     dominant_color_of 200 180 190 = DominantColor.green ∨
     dominant_color_of 200 180 190 = DominantColor.blue) := by
  constructor
  · exact (dominant_color_comparative_first 200 200 200).1
      (Or.inl (by norm_num [dominant_color_of]))
  · exact (dominant_color_comparative_first 200 180 190).2
      (by norm_num) (by norm_num) (by norm_num)

end VideoVision
